import Mathlib

/-!
Verification of the audio-upload gateway worker (`src/index.ts`) against its
specification.  The worker is a Cloudflare-style fetch handler that gates
every request through a capability-token check (`verifyRequest`) and then
routes multipart-upload actions to a backing object store.

Shallow embedding conventions:
* JavaScript strings/numbers become `String`/`Nat`/`Int`.
* The parsed cookie jar, the backing store and the outbound network call are
  modelled as explicit values/oracles passed into the handler (the spec
  declares cookie-string parsing, configuration loading and the store itself
  to be external collaborators).
* `await`-related slips of the source are modelled exactly as JavaScript
  executes them, with comments at the relevant definitions.
* Fetch results are `FetchResult`: either an `HttpResponse` or an uncaught
  exception escaping the handler.  A trace of store operations is returned
  alongside, so "the store was (not) touched" is a statement about the trace.
-/

/-- Order status enum from `src/index.ts` line 8. -/
inductive OrderStatus where
  | created | accepted | queued | work_started
  | work_completed | delivered | pending | declined
deriving DecidableEq, Repr

/-- `OrderMetadata` from `src/index.ts` lines 41-46. -/
structure OrderMetadata where
  orderId : String
  orderCartId : String
  orderSongIds : List String
  orderStatus : OrderStatus
deriving DecidableEq, Repr

/-- `may_act` sub-object of the claim set. -/
structure MayAct where
  client_id : String
deriving DecidableEq, Repr

/-- `Claims` from `src/index.ts` lines 48-57.  The TypeScript type omits
`aud`, but the code reads `verified.payload.aud` (line 147) and `signJwt`
writes an `aud` field (line 78), so the payload carries it; the spec's data
model (§3) also lists `aud`. -/
structure Claims where
  realm : String
  sub : String
  may_act : MayAct
  nbf : Nat
  iat : Nat
  addl : OrderMetadata
  aud : String
deriving DecidableEq, Repr

/-- Which half of an asymmetric key pair a key handle is. -/
inductive KeyHalf where
  | priv | pub
deriving DecidableEq, Repr

/-- An asymmetric key handle: the identity of the key pair it belongs to and
which half it is.  In the source, keys are opaque PEM strings; the pair
identity is the property the claims about key usage quantify over. -/
structure Key where
  pairId : String
  half : KeyHalf
deriving DecidableEq, Repr

/-- Options record passed to `sign`/`verify` (the `algorithm` field). -/
structure SignOptions where
  algorithm : String
deriving DecidableEq, Repr

/-- A compact signed token: a claim payload protected by a signature made
with a specific key pair and algorithm. -/
structure Token where
  payload : Claims
  keyPairId : String
  algo : String
deriving DecidableEq, Repr

/-- Result wrapper returned by `verify` (the code reads `verified.payload`). -/
structure Verified where
  payload : Claims
deriving DecidableEq, Repr

/-- Modelled from the spec: `TokenCodec.sign` (imported from `./jwt`, a file
of this repository not present under `src/`).  Per spec §4.1 it produces a
deterministic serialization of the claims plus a detached signature under
the given key and algorithm; here the token records the payload, the signing
key's pair identity and the algorithm. -/
def sign (c : Claims) (k : Key) (opts : SignOptions) : Token :=
  ⟨c, k.pairId, opts.algorithm⟩

/-- Modelled from the spec: `TokenCodec.verify` (imported from `./jwt`, a
file of this repository not present under `src/`).  Per spec §4.1 it returns
the claims on success and a failure (not an exception) on malformed token,
signature mismatch or algorithm mismatch: success requires the supplied key
to be the public half of the pair that signed the token and the algorithm to
match.  No expiry check (spec §4.1, §9). -/
def verify (t : Token) (k : Key) (opts : SignOptions) : Option Verified :=
  if k.half = KeyHalf.pub ∧ t.keyPairId = k.pairId ∧ t.algo = opts.algorithm
  then some ⟨t.payload⟩
  else none

/-- The configuration fields of `Env` (`src/index.ts` lines 11-38) that the
verified code paths read.  Field names follow the source, including the
lower-case `a` typo in `aUTHORIZED_AUDIENCE`. -/
structure Env where
  COOKIE_NAME : String
  AUTHORIZED_SUBJECT : String
  AUTHORIZED_REALM : String
  AUTHORIZED_CLIENT_ID : String
  aUTHORIZED_AUDIENCE : String
  CLOUDFLARE_WORKER_PRIVATE_KEY : Key
  CLOUDFLARE_WORKER_PUBLIC_KEY : Key
  CLOUDFLARE_WORKER_AUD : String
  CLOUDFLARE_WORKER_REALM : String
  CLOUDFLARE_WORKER_SUB : String
  CLOUDFLARE_WORKER_CLIENT_ID : String
  CLOUDFLARE_WORKER_SIGNING_ALGO : String

/-- Request headers, reduced to the cookie jar the handler reads.
`cookie = none` models a request with no `cookie` header; `some jar` models a
present header whose parsed form is `jar` (cookie-string parsing is an
external collaborator per spec §1, so the jar is already parsed; values are
tokens since the only cookie the code reads carries the capability token). -/
structure HeadersM where
  cookie : Option (List (String × Token))

/-- `extractJwtCookie` (`src/index.ts` lines 171-182): parse the cookie
header (empty jar when absent), return `undefined` when the header is
missing, otherwise index the jar by the configured cookie name. -/
def extractJwtCookie (cookieName : String) (headers : HeadersM) : Option Token :=
  let cookies := headers.cookie.getD []
  match headers.cookie with
  | none => none
  | some _ => cookies.lookup cookieName

/-- The `ApiError | ApiResponse<T>` union (`src/index.ts` lines 59-69):
exactly one of an error envelope or a data payload. -/
inductive ApiResult (T : Type) where
  | err (message : String) (status : Nat)
  | ok (data : T) (status : Nat)
deriving DecidableEq, Repr

/-- `isApiError` (`src/index.ts` line 71). -/
def isApiError {T : Type} : ApiResult T → Bool
  | .err _ _ => true
  | .ok _ _ => false

/-- Outcome of the single outbound `fetch` to the conveyor verification
endpoint, as seen by `executeConveyorVerificationRequest`:
a response whose body parses, a response whose `.json()` throws, or a
transport error thrown before any response exists. -/
inductive ConveyorOutcome where
  | respond (status : Nat) (body : String)
  | respondBadJson (status : Nat) (message : String)
  | threw (message : String)
deriving DecidableEq, Repr

/-- A conveyor outcome counts as an explicit success exactly when a response
with status 200 and a parseable body arrived. -/
def isSuccessOutcome : ConveyorOutcome → Bool
  | .respond s _ => s == 200
  | _ => false

/-- `signJwt` (`src/index.ts` lines 73-90): build the gateway's own outbound
claim set around the order metadata and sign it with
`CLOUDFLARE_WORKER_PRIVATE_KEY`.  `Date.now()` is passed in as `now`. -/
def signJwt (meta : OrderMetadata) (env : Env) (now : Nat) : Token :=
  sign
    { aud := env.CLOUDFLARE_WORKER_AUD
      realm := env.CLOUDFLARE_WORKER_REALM
      sub := env.CLOUDFLARE_WORKER_SUB
      may_act := ⟨env.CLOUDFLARE_WORKER_CLIENT_ID⟩
      nbf := now
      iat := now
      addl := meta }
    env.CLOUDFLARE_WORKER_PRIVATE_KEY
    ⟨env.CLOUDFLARE_WORKER_SIGNING_ALGO⟩

/-- `executeConveyorVerificationRequest` (`src/index.ts` lines 92-128):
sign a fresh outbound token, attach it as a cookie, issue one GET, and
classify the result.  Non-200 status: error envelope with that status.
Thrown transport error: error with status 500 (`response?.status ?? 500`
with `response` unset).  `.json()` throwing after a response arrived lands
in the same catch with the response's status. -/
def executeConveyorVerificationRequest (meta : OrderMetadata) (env : Env)
    (net : ConveyorOutcome) (now : Nat) : ApiResult String :=
  let _jwt := signJwt meta env now
  match net with
  | .respond s b => if s ≠ 200 then .err b s else .ok b s
  | .respondBadJson s m => .err m s
  | .threw m => .err m 500

/-- Result of the authorization gate together with whether the outbound
remote-verification call was made. -/
structure GateResult where
  allowed : Bool
  remoteCalled : Bool
deriving DecidableEq, Repr

/-- `verifyRequest` (`src/index.ts` lines 130-169): extract the capability
token from the named cookie, verify its signature with
`CLOUDFLARE_WORKER_PUBLIC_KEY`, cross-check the four identity claims against
the configured authorized identity, and only then call the conveyor
verification endpoint; any error envelope from it denies. -/
def verifyRequest (headers : HeadersM) (env : Env) (net : ConveyorOutcome)
    (now : Nat) : GateResult :=
  match extractJwtCookie env.COOKIE_NAME headers with
  | none => ⟨false, false⟩
  | some jwt =>
    match verify jwt env.CLOUDFLARE_WORKER_PUBLIC_KEY
        ⟨env.CLOUDFLARE_WORKER_SIGNING_ALGO⟩ with
    | none => ⟨false, false⟩
    | some verified =>
      let subject := verified.payload.sub
      let aud := verified.payload.aud
      let realm := verified.payload.realm
      let client_id := verified.payload.may_act.client_id
      if client_id ≠ env.AUTHORIZED_CLIENT_ID
          ∨ realm ≠ env.AUTHORIZED_REALM
          ∨ aud ≠ env.aUTHORIZED_AUDIENCE
          ∨ subject ≠ env.AUTHORIZED_SUBJECT
      then ⟨false, false⟩
      else
        let response := executeConveyorVerificationRequest verified.payload.addl env net now
        if isApiError response then ⟨false, true⟩ else ⟨true, true⟩

/-- `R2UploadedPart`: part number plus etag. -/
structure UploadedPart where
  partNumber : Option Int
  etag : String
deriving DecidableEq, Repr

/-- An object returned by the store's `get`. -/
structure R2ObjectM where
  httpEtag : String
  content : String
deriving DecidableEq, Repr

/-- The backing object store, as an oracle of pure outcome functions: each
field gives the result the store would return (or the message of the error
it would raise) for the corresponding operation. -/
structure Store where
  createMultipartUpload : String → String
  completeUpload : String → String → List UploadedPart → Except String String
  uploadPart : String → String → Option Int → Except String UploadedPart
  abortUpload : String → String → Except String Unit
  getObject : String → Option R2ObjectM

/-- A store operation performed by the handler (the trace alphabet). -/
inductive StoreOp where
  | createMPU (key : String)
  | completeMPU (key uploadId : String) (parts : List UploadedPart)
  | uploadPartOp (key uploadId : String) (partNumber : Option Int)
  | abortMPU (key uploadId : String)
  | getOp (key : String)
  | deleteOp (key : String)
deriving DecidableEq, Repr

/-- The body of the `mpu-complete` request as `await request.json()` sees
it: `absent` when the body is missing or not JSON (`json()` throws),
`nullBody` when it is the JSON literal `null`, `parts` otherwise. -/
inductive JsonBody where
  | absent
  | nullBody
  | parts (ps : List UploadedPart)
deriving DecidableEq, Repr

/-- An inbound HTTP request, reduced to the fields the handler reads. -/
structure JsRequest where
  method : String
  pathname : String
  query : List (String × String)
  headers : HeadersM
  hasBody : Bool
  jsonBody : JsonBody

/-- `url.searchParams.get`: first value bound to the name, if any. -/
def getParam (q : List (String × String)) (name : String) : Option String :=
  q.lookup name

/-- A response body: empty, plain text, one of the JSON shapes the handler
serializes, or the streamed object content of a `get`. -/
inductive BodyVal where
  | empty
  | text (s : String)
  | jsonCreate (key uploadId : String)
  | jsonPart (p : UploadedPart)
  | objBody (content : String)
deriving DecidableEq, Repr

/-- An HTTP response: status, body, and response headers. -/
structure HttpResponse where
  status : Nat
  body : BodyVal
  rheaders : List (String × String)
deriving DecidableEq, Repr

/-- The overall outcome of one `fetch` invocation: a response, or an
uncaught exception escaping the handler (which the runtime surfaces as an
internal error, not a response built by this code). -/
inductive FetchResult where
  | resp (r : HttpResponse)
  | exn (message : String)
deriving DecidableEq, Repr

/-- JavaScript `parseInt(s)` (radix 10): skip leading whitespace and an
optional sign, read the leading run of decimal digits; `none` models `NaN`
(no digits). -/
def jsParseInt (s : String) : Option Int :=
  let core : List Char → Option Nat := fun cs =>
    let ds := cs.takeWhile Char.isDigit
    if ds.isEmpty then none
    else some (ds.foldl (fun a c => a * 10 + (c.toNat - 48)) 0)
  match s.toList.dropWhile Char.isWhitespace with
  | '-' :: rest => (core rest).map (fun n => -(n : Int))
  | '+' :: rest => (core rest).map (fun n => (n : Int))
  | cs => (core cs).map (fun n => (n : Int))

/-- JavaScript truthiness of an object value: every object, including a
pending `Promise`, is truthy.  `fetch` tests `!verifyRequest(request.headers,
env)` without `await` (`src/index.ts` line 191), so the tested value is the
`Promise` object itself, never the boolean it resolves to. -/
def promiseTruthy : Bool := true

/-- The default-exported `fetch` handler (`src/index.ts` lines 184-337).
Returns the fetch outcome together with the trace of store operations
performed.  Faithful to the source line by line, including:
* the un-awaited `verifyRequest` call, whose Promise is tested for
  truthiness (see `promiseTruthy`), so the 401 branch is unreachable;
* `await request.json()` in `mpu-complete` throwing (uncaught) on a missing
  body, before the dead `completeBody === null` check;
* `parseInt(partNumberString)` with no integrality validation in
  `mpu-uploadpart`;
* the un-awaited `multipartUpload.abort()` inside `try`/`catch`: its
  rejection escapes the catch, so the 204 response is returned regardless of
  the store outcome. -/
def fetchHandler (req : JsRequest) (env : Env) (store : Store)
    (net : ConveyorOutcome) (now : Nat) : FetchResult × List StoreOp :=
  let _gate := verifyRequest req.headers env net now
  if !promiseTruthy then
    (.resp ⟨401, .text "Unauthorized", []⟩, [])
  else
    let key := req.pathname.drop 1
    match getParam req.query "action" with
    | none => (.resp ⟨400, .text "Missing action type", []⟩, [])
    | some action =>
      if req.method = "POST" then
        if action = "mpu-create" then
          let uploadId := store.createMultipartUpload key
          (.resp ⟨200, .jsonCreate key uploadId, []⟩, [.createMPU key])
        else if action = "mpu-complete" then
          match getParam req.query "uploadId" with
          | none => (.resp ⟨400, .text "Missing uploadId", []⟩, [])
          | some uploadId =>
            match req.jsonBody with
            | .absent => (.exn "Unexpected end of JSON input", [])
            | .nullBody => (.resp ⟨400, .text "Missing or incomplete body", []⟩, [])
            | .parts ps =>
              match store.completeUpload key uploadId ps with
              | .ok etag =>
                (.resp ⟨200, .empty, [("etag", etag)]⟩, [.completeMPU key uploadId ps])
              | .error m =>
                (.resp ⟨400, .text m, []⟩, [.completeMPU key uploadId ps])
        else
          (.resp ⟨400, .text ("Unknown action " ++ action ++ " for POST"), []⟩, [])
      else if req.method = "PUT" then
        if action = "mpu-uploadpart" then
          match getParam req.query "partNumber", getParam req.query "uploadId" with
          | some partNumberString, some uploadId =>
            if !req.hasBody then
              (.resp ⟨400, .text "Missing request body", []⟩, [])
            else
              let partNumber := jsParseInt partNumberString
              match store.uploadPart key uploadId partNumber with
              | .ok p =>
                (.resp ⟨200, .jsonPart p, []⟩, [.uploadPartOp key uploadId partNumber])
              | .error m =>
                (.resp ⟨400, .text m, []⟩, [.uploadPartOp key uploadId partNumber])
          | _, _ => (.resp ⟨400, .text "Missing partNumber or uploadId", []⟩, [])
        else
          (.resp ⟨400, .text ("Unknown action " ++ action ++ " for PUT"), []⟩, [])
      else if req.method = "GET" then
        if action ≠ "get" then
          (.resp ⟨400, .text ("Unknown action " ++ action ++ " for GET"), []⟩, [])
        else
          match store.getObject key with
          | none => (.resp ⟨404, .text "Object Not Found", []⟩, [.getOp key])
          | some o =>
            (.resp ⟨200, .objBody o.content, [("etag", o.httpEtag)]⟩, [.getOp key])
      else if req.method = "DELETE" then
        if action = "mpu-abort" then
          match getParam req.query "uploadId" with
          | none => (.resp ⟨400, .text "Missing uploadId", []⟩, [])
          | some uploadId =>
            let _aborted := store.abortUpload key uploadId
            (.resp ⟨204, .empty, []⟩, [.abortMPU key uploadId])
        else if action = "delete" then
          (.resp ⟨204, .empty, []⟩, [.deleteOp key])
        else
          (.resp ⟨400, .text ("Unknown action " ++ action ++ " for DELETE"), []⟩, [])
      else
        (.resp ⟨405, .text "Method Not Allowed", [("Allow", "PUT, POST, GET, DELETE")]⟩, [])

/-! Concrete fixtures used by counterexamples and witnesses.  They model the
reference deployment: one worker key pair (`worker-pair`), the configured
authorized identity, a store oracle that accepts every operation, and a
reference valid capability token. -/

/-- Public half of the worker's key pair (the inbound-verification key). -/
def keyPub : Key := ⟨"worker-pair", KeyHalf.pub⟩

/-- Private half of the worker's key pair (the outbound-signing key). -/
def keyPriv : Key := ⟨"worker-pair", KeyHalf.priv⟩

/-- A concrete environment for the reference deployment. -/
def envA : Env :=
  ⟨"jwt", "svc-subject", "realm-a", "client-1", "aud-a",
   keyPriv, keyPub,
   "conveyor-aud", "realm-w", "worker-sub", "worker-client", "RS512"⟩

/-- A concrete order metadata value. -/
def metaA : OrderMetadata := ⟨"order-1", "cart-1", ["song-1"], .created⟩

/-- A claim set matching `envA`'s authorized identity exactly. -/
def claimsGood : Claims :=
  ⟨"realm-a", "svc-subject", ⟨"client-1"⟩, 0, 0, metaA, "aud-a"⟩

/-- A capability token over `claimsGood`, signed by the worker pair with the
configured algorithm: it passes signature verification under `envA`. -/
def tokenGood : Token := ⟨claimsGood, "worker-pair", "RS512"⟩

/-- Headers carrying `tokenGood` in the configured `jwt` cookie. -/
def headersGood : HeadersM := ⟨some [("jwt", tokenGood)]⟩

/-- A token that verifies under `envA` but whose `sub` claim differs from the
configured authorized subject. -/
def tokenBadSub : Token :=
  ⟨{ claimsGood with sub := "intruder" }, "worker-pair", "RS512"⟩

/-- A store oracle on which every operation succeeds; `uploadPart` echoes the
part number it was given. -/
def storeOkA : Store :=
  ⟨fun _ => "upload-1",
   fun _ _ _ => .ok "etag-complete",
   fun _ _ pn => .ok ⟨pn, "etag-part"⟩,
   fun _ _ => .ok (),
   fun _ => some ⟨"etag-object", "object-content"⟩⟩

/-- Like `storeOkA`, but the store reports an error on `abort`. -/
def storeAbortErr : Store :=
  { storeOkA with abortUpload := fun _ _ => .error "upload does not exist" }

/-- C1: the claim says a request with a missing/invalid capability token gets
a 401 "Unauthorized" response with no store or routing operation.  On the
code this fails: `fetch` tests `!verifyRequest(...)` without `await`
(`src/index.ts` line 191), so the Promise object is always truthy and the
401 branch is unreachable.  At a concrete request carrying no cookie at all
— which `verifyRequest` itself would deny without any remote call — the
handler routes the request and performs the store's `get`, returning 200. -/
theorem c1_missing_token_not_rejected :
    verifyRequest ⟨none⟩ envA (.threw "connection refused") 0 = ⟨false, false⟩ ∧
    fetchHandler ⟨"GET", "/song.mp3", [("action", "get")], ⟨none⟩, false, .absent⟩
        envA storeOkA (.threw "connection refused") 0
      = (.resp ⟨200, .objBody "object-content", [("etag", "etag-object")]⟩,
         [.getOp "song.mp3"]) :=
  ⟨rfl, rfl⟩

/-- C2: every token that passes signature verification but differs from the
configured authorized identity in at least one of `sub`, `realm`, `aud`,
`may_act.client_id` is denied by `verifyRequest`, and the remote
verification call is not made (`remoteCalled = false`). -/
theorem c2_claim_mismatch_denies (headers : HeadersM) (env : Env)
    (net : ConveyorOutcome) (now : Nat) (token : Token) (v : Verified)
    (hjwt : extractJwtCookie env.COOKIE_NAME headers = some token)
    (hver : verify token env.CLOUDFLARE_WORKER_PUBLIC_KEY
      ⟨env.CLOUDFLARE_WORKER_SIGNING_ALGO⟩ = some v)
    (hmis : v.payload.sub ≠ env.AUTHORIZED_SUBJECT
      ∨ v.payload.realm ≠ env.AUTHORIZED_REALM
      ∨ v.payload.aud ≠ env.aUTHORIZED_AUDIENCE
      ∨ v.payload.may_act.client_id ≠ env.AUTHORIZED_CLIENT_ID) :
    verifyRequest headers env net now = ⟨false, false⟩ := by
  unfold verifyRequest
  rw [hjwt]
  simp only [hver]
  have hcond : v.payload.may_act.client_id ≠ env.AUTHORIZED_CLIENT_ID
      ∨ v.payload.realm ≠ env.AUTHORIZED_REALM
      ∨ v.payload.aud ≠ env.aUTHORIZED_AUDIENCE
      ∨ v.payload.sub ≠ env.AUTHORIZED_SUBJECT := by tauto
  simp only [if_pos hcond]

/-- C2 witness: a token signed by the worker pair whose `sub` claim is
`intruder` is denied with no remote call under the reference environment. -/
theorem c2_claim_mismatch_denies_witness :
    verifyRequest ⟨some [("jwt", tokenBadSub)]⟩ envA (.respond 200 "OK") 0
      = ⟨false, false⟩ :=
  c2_claim_mismatch_denies ⟨some [("jwt", tokenBadSub)]⟩ envA (.respond 200 "OK") 0
    tokenBadSub ⟨tokenBadSub.payload⟩ (by decide) (by decide) (by decide)

/-- C3: every request whose headers lack the named credential cookie is
denied by `verifyRequest` without invoking the remote verification client
(`remoteCalled = false`). -/
theorem c3_missing_cookie_denies (headers : HeadersM) (env : Env)
    (net : ConveyorOutcome) (now : Nat)
    (h : extractJwtCookie env.COOKIE_NAME headers = none) :
    verifyRequest headers env net now = ⟨false, false⟩ := by
  unfold verifyRequest
  rw [h]

/-- C3 witness: a request with no cookie header at all is denied with no
remote call even when the remote endpoint would have answered success. -/
theorem c3_missing_cookie_denies_witness :
    verifyRequest ⟨none⟩ envA (.respond 200 "OK") 0 = ⟨false, false⟩ :=
  c3_missing_cookie_denies ⟨none⟩ envA (.respond 200 "OK") 0 (by decide)

/-- C4: whenever the remote verification call's outcome is not an explicit
success (any status other than 200, a malformed response body, or a thrown
transport error), `verifyRequest` returns Deny. -/
theorem c4_nonsuccess_remote_denies (headers : HeadersM) (env : Env)
    (net : ConveyorOutcome) (now : Nat)
    (h : isSuccessOutcome net = false) :
    (verifyRequest headers env net now).allowed = false := by
  unfold verifyRequest
  split
  · rfl
  · split
    · rfl
    · dsimp only
      split
      · rfl
      · cases net with
        | respond s b =>
          simp only [isSuccessOutcome] at h
          rw [beq_eq_false_iff_ne] at h
          simp [executeConveyorVerificationRequest, isApiError, h]
        | respondBadJson s m => rfl
        | threw m => rfl

/-- C4 witness: with a fully valid request (so only the remote call can
decide the outcome) and the remote endpoint answering status 500, the gate
denies. -/
theorem c4_nonsuccess_remote_denies_witness :
    (verifyRequest headersGood envA (.respond 500 "server error") 0).allowed = false :=
  c4_nonsuccess_remote_denies headersGood envA (.respond 500 "server error") 0 (by decide)

/-- C5 counterexample: the claim says an `mpu-uploadpart` request whose
`partNumber` is present but not an integer is rejected with 400 before the
store's `uploadPart` is invoked.  On the code this fails: with
`partNumber=abc` (so `parseInt` yields NaN) and a store that accepts the
call, `uploadPart` IS invoked (it appears in the trace) and the response is
200, not 400 — there is no integrality validation before the store call. -/
theorem c5_counterexample :
    fetchHandler
        ⟨"PUT", "/k.mp3",
         [("action", "mpu-uploadpart"), ("uploadId", "u1"), ("partNumber", "abc")],
         ⟨none⟩, true, .absent⟩
        envA storeOkA (.respond 200 "OK") 0
      = (.resp ⟨200, .jsonPart ⟨none, "etag-part"⟩, []⟩,
         [.uploadPartOp "k.mp3" "u1" none]) :=
  rfl

/-- C5 amended: an `mpu-uploadpart` request with `partNumber` present
(integer or not), `uploadId` present and a non-null body always invokes the
store's `uploadPart` with the JavaScript `parseInt` of the string (NaN when
it has no leading digits); the response is the store's outcome — 200 with
the part JSON on success, 400 with the store's message on store error —
never a pre-store integrality rejection. -/
theorem c5_uploadpart_no_integer_validation (env : Env) (store : Store)
    (net : ConveyorOutcome) (now : Nat) (p uploadId pns : String)
    (hd : HeadersM) (jb : JsonBody) :
    fetchHandler
        ⟨"PUT", p, [("action", "mpu-uploadpart"), ("uploadId", uploadId), ("partNumber", pns)],
         hd, true, jb⟩ env store net now
      = (match store.uploadPart (p.drop 1) uploadId (jsParseInt pns) with
         | .ok part =>
           (.resp ⟨200, .jsonPart part, []⟩,
            [.uploadPartOp (p.drop 1) uploadId (jsParseInt pns)])
         | .error m =>
           (.resp ⟨400, .text m, []⟩,
            [.uploadPartOp (p.drop 1) uploadId (jsParseInt pns)])) :=
  rfl

/-- C6: the claim says an `mpu-complete` request with a missing body returns
400 and does not call the store's `complete`.  On the code the second half
holds, but the first fails: `await request.json()` throws on a missing body
before the `completeBody === null` check (which is dead for absent bodies),
and nothing catches it — the handler raises instead of returning 400.  At a
concrete bodiless request the outcome is an uncaught exception with an empty
store trace. -/
theorem c6_missing_body_uncaught_throw :
    fetchHandler
        ⟨"POST", "/k.mp3", [("action", "mpu-complete"), ("uploadId", "u1")],
         ⟨none⟩, false, .absent⟩
        envA storeOkA (.respond 200 "OK") 0
      = (.exn "Unexpected end of JSON input", []) :=
  rfl

/-- C7 counterexample: the claim says inbound verification and outbound
signing use two separate asymmetric key pairs, never one shared pair.  On
the code this fails: the inbound-verification key
(`CLOUDFLARE_WORKER_PUBLIC_KEY`) and the outbound-signing key
(`CLOUDFLARE_WORKER_PRIVATE_KEY`) of the reference deployment are the two
halves of the single worker pair (equal pair identity), and the full
pipeline allows a request under exactly that shared-pair configuration. -/
theorem c7_counterexample :
    envA.CLOUDFLARE_WORKER_PUBLIC_KEY.pairId
        = envA.CLOUDFLARE_WORKER_PRIVATE_KEY.pairId ∧
    verifyRequest headersGood envA (.respond 200 "OK") 0 = ⟨true, true⟩ :=
  ⟨rfl, rfl⟩

/-- C7 amended: the inbound-verification key and the outbound-signing key
are two distinct configuration handles (`CLOUDFLARE_WORKER_PUBLIC_KEY` and
`CLOUDFLARE_WORKER_PRIVATE_KEY`), but the code neither requires nor enforces
that they belong to two separate key pairs: even when both handles belong to
one shared pair (`hshared`), a well-formed request is allowed end to end —
the shared-pair hypothesis is never needed to refute anything. -/
theorem c7_shared_pair_allows (env : Env) (headers : HeadersM) (token : Token)
    (net : ConveyorOutcome) (now : Nat)
    (hshared : env.CLOUDFLARE_WORKER_PUBLIC_KEY.pairId
      = env.CLOUDFLARE_WORKER_PRIVATE_KEY.pairId)
    (hjwt : extractJwtCookie env.COOKIE_NAME headers = some token)
    (hver : verify token env.CLOUDFLARE_WORKER_PUBLIC_KEY
      ⟨env.CLOUDFLARE_WORKER_SIGNING_ALGO⟩ = some ⟨token.payload⟩)
    (hsub : token.payload.sub = env.AUTHORIZED_SUBJECT)
    (hrealm : token.payload.realm = env.AUTHORIZED_REALM)
    (haud : token.payload.aud = env.aUTHORIZED_AUDIENCE)
    (hcid : token.payload.may_act.client_id = env.AUTHORIZED_CLIENT_ID)
    (hnet : isSuccessOutcome net = true) :
    verifyRequest headers env net now = ⟨true, true⟩ := by
  unfold verifyRequest
  rw [hjwt]
  simp only [hver]
  have hcond : ¬ (token.payload.may_act.client_id ≠ env.AUTHORIZED_CLIENT_ID
      ∨ token.payload.realm ≠ env.AUTHORIZED_REALM
      ∨ token.payload.aud ≠ env.aUTHORIZED_AUDIENCE
      ∨ token.payload.sub ≠ env.AUTHORIZED_SUBJECT) := by tauto
  simp only [if_neg hcond]
  cases net with
  | respond s b =>
    simp only [isSuccessOutcome, beq_iff_eq] at hnet
    subst hnet
    simp [executeConveyorVerificationRequest, isApiError]
  | respondBadJson s m => simp [isSuccessOutcome] at hnet
  | threw m => simp [isSuccessOutcome] at hnet

/-- C7 amended witness: the reference deployment's shared worker pair allows
a valid request end to end. -/
theorem c7_shared_pair_allows_witness :
    verifyRequest headersGood envA (.respond 200 "OK") 0 = ⟨true, true⟩ :=
  c7_shared_pair_allows envA headersGood tokenGood (.respond 200 "OK") 0
    (by decide) (by decide) (by decide) (by decide) (by decide) (by decide)
    (by decide) (by decide)

/-- C8: the claim says a store error during `mpu-abort` yields a 400
carrying the store's message.  On the code this fails:
`multipartUpload.abort()` is not awaited (`src/index.ts` line 316), so its
rejection escapes the surrounding `try`/`catch` and the handler returns the
204 empty response regardless.  At a concrete request against a store whose
abort reports "upload does not exist", the response is 204 with an empty
body, not 400 with the message. -/
theorem c8_abort_error_swallowed :
    storeAbortErr.abortUpload "k.mp3" "u1" = .error "upload does not exist" ∧
    fetchHandler
        ⟨"DELETE", "/k.mp3", [("action", "mpu-abort"), ("uploadId", "u1")],
         ⟨none⟩, false, .absent⟩
        envA storeAbortErr (.respond 200 "OK") 0
      = (.resp ⟨204, .empty, []⟩, [.abortMPU "k.mp3" "u1"]) :=
  ⟨rfl, rfl⟩

/-- C9: signing an arbitrary valid claim set and verifying the resulting
token with the matching key pair (public half of the signing key's pair) and
the same algorithm returns claims structurally equal to the input:
`verify (sign c) = c`. -/
theorem c9_sign_verify_roundtrip (c : Claims) (kpriv kpub : Key) (algo : String)
    (hpair : kpub.pairId = kpriv.pairId) (hpub : kpub.half = KeyHalf.pub) :
    verify (sign c kpriv ⟨algo⟩) kpub ⟨algo⟩ = some ⟨c⟩ := by
  unfold sign verify
  simp [hpair, hpub]

/-- C9 witness: the round trip at the reference claim set and the worker key
pair. -/
theorem c9_sign_verify_roundtrip_witness :
    verify (sign claimsGood keyPriv ⟨"RS512"⟩) keyPub ⟨"RS512"⟩ = some ⟨claimsGood⟩ :=
  c9_sign_verify_roundtrip claimsGood keyPriv keyPub "RS512" rfl rfl

/-- C10: every request whose URL lacks the `action` query parameter — for
any HTTP method — is answered with 400 "Missing action type" and an empty
store trace (no store operation attempted). -/
theorem c10_missing_action_rejected (req : JsRequest) (env : Env) (store : Store)
    (net : ConveyorOutcome) (now : Nat)
    (h : getParam req.query "action" = none) :
    fetchHandler req env store net now
      = (.resp ⟨400, .text "Missing action type", []⟩, []) := by
  simp only [fetchHandler, promiseTruthy, Bool.not_true, Bool.false_eq_true, if_false, h]

/-- C10 witness: a POST with an empty query string is rejected with 400 and
no store operation. -/
theorem c10_missing_action_rejected_witness :
    fetchHandler ⟨"POST", "/k.mp3", [], ⟨none⟩, false, .absent⟩
        envA storeOkA (.threw "unreached") 0
      = (.resp ⟨400, .text "Missing action type", []⟩, []) :=
  c10_missing_action_rejected ⟨"POST", "/k.mp3", [], ⟨none⟩, false, .absent⟩
    envA storeOkA (.threw "unreached") 0 (by decide)
